import Mathlib

/-!
Verification of the environment-resolution layer of the `jiri` repository
(file `internal/util/env.go`, package `util`).

The Go code is shallowly embedded: every function of `env.go` becomes a pure
Lean function.  All interaction with the outside world (process environment,
filesystem stat/read, symlink resolution, the manifest reader and the JSON
decoder, which live outside `env.go`) is captured by an explicit `World`
record of oracles, so each Go call that queries the OS becomes a lookup in
the `World`.  Errors are a tagged type `Err` whose constructors correspond
to the error classes of the code (each `fmt.Errorf` site keeps its class);
`UnsupportedPlatformErr` carries the rejected platform like the Go struct.
-/

set_option autoImplicit false

namespace JiriEnv

/-! ### Token-list machinery

`envutil.Snapshot` (package `v.io/x/devtools/internal/envutil`) is not part
of the sources under verification, so its token-list operations are modelled
from the spec: reading a token-list variable splits its value on the given
separator character, treating a not-yet-set (or empty) variable as the empty
list; writing re-joins the tokens with the same separator.  Splitting and
joining are defined from scratch over `List Char` so that the round-trip
properties can be proved by induction. -/

/-- Split a character list at every occurrence of the separator `c`.
The result is always non-empty and no chunk contains `c`. -/
def splitCh (c : Char) : List Char → List (List Char)
  | [] => [[]]
  | a :: as =>
    if a = c then [] :: splitCh c as
    else
      match splitCh c as with
      | [] => [[a]]
      | b :: bs => (a :: b) :: bs

/-- Join chunks with a single separator character between consecutive chunks. -/
def joinChunks (c : Char) : List (List Char) → List Char
  | [] => []
  | [l] => l
  | l :: l2 :: ls => l ++ c :: joinChunks c (l2 :: ls)

/-- String-level token join (models `strings.Join(tokens, separator)`). -/
def joinTokens (c : Char) (ts : List String) : String :=
  String.mk (joinChunks c (ts.map String.data))

/-- String-level token split (models `strings.Split(value, separator)`). -/
def splitTokens (c : Char) (s : String) : List String :=
  (splitCh c s.data).map String.mk

/-! ### Environment snapshots

Modelled from the spec: an environment snapshot is a mutable key/value
mapping from variable name to string value, initialized as a copy of the
real process environment, supporting direct set of a scalar value and
get/set of a token list under a given separator character.  Mutations are
snapshot-local; the real process environment is never mutated in place. -/

/-- A snapshot of environment variables (`envutil.Snapshot`), as a partial
map from variable names to values.  `none` means the variable is unset. -/
def Snapshot : Type := String → Option String

/-- Scalar read (`Snapshot.Get`): an unset variable reads as `""`. -/
def Snapshot.get (s : Snapshot) (k : String) : String :=
  (s k).getD ""

/-- Scalar write (`Snapshot.Set`). -/
def Snapshot.set (s : Snapshot) (k v : String) : Snapshot :=
  fun k2 => if k2 = k then some v else s k2

/-- Token-list read (`Snapshot.GetTokens`): split the value on the separator,
treating a not-yet-set (hence empty-valued) variable as the empty list. -/
def Snapshot.getTokens (s : Snapshot) (k : String) (sep : Char) : List String :=
  let v := s.get k
  if v = "" then [] else splitTokens sep v

/-- Token-list write (`Snapshot.SetTokens`): re-join with the separator. -/
def Snapshot.setTokens (s : Snapshot) (k : String) (ts : List String) (sep : Char) :
    Snapshot :=
  s.set k (joinTokens sep ts)

/-! ### Paths and strings -/

/-- Models Go `filepath.Join`: empty elements are ignored and the remaining
ones are joined with `/`.  (Go additionally runs `Clean` on the result; the
paths formed in `env.go` contain no `.`/`..` segments or duplicate slashes,
so cleaning is the identity on them and is not modelled.) -/
def filepathJoin (parts : List String) : String :=
  String.mk (joinChunks '/' ((parts.filter (fun p => p ≠ "")).map String.data))

/-- Models Go `strings.TrimPrefix`: drop `pre` from the front of `s` when it
is a prefix, otherwise return `s` unchanged. -/
def stringTrimPre (s pre : String) : String :=
  if pre.data.isPrefixOf s.data then String.mk (s.data.drop pre.data.length) else s

/-- Models Go `filepath.IsAbs` (Unix): a path is absolute iff it starts
with a slash. -/
def filepathIsAbs (path : String) : Bool :=
  path.data.head? = some '/'

/-! ### Data model -/

/-- A build-target platform descriptor (`util.Platform`): operating system,
CPU architecture and optional sub-architecture (e.g. ARM revision). -/
structure Platform where
  OS : String
  Arch : String
  SubArch : String

/-- Modelled from the spec: the parsed tool configuration (`util.Config`,
whose definition lives outside `env.go`), exposing the two accessors
`GoWorkspaces` and `VDLWorkspaces` used by `env.go`: lists of root-relative
workspace directories. -/
structure Config where
  GoWorkspaces : List String
  VDLWorkspaces : List String

/-- Modelled from the spec: a tool entry of the manifest's tool registry,
mapping a tool name to its owning project and data subdirectory; the `Name`
field mirrors the Go struct field read by `DataDirPath`'s error message
(whose zero value is `""`). -/
structure ToolEntry where
  Name : String
  Project : String
  Data : String

/-- Modelled from the spec: a project entry of the manifest's project
registry, carrying the project's path. -/
structure ProjectEntry where
  Path : String

/-- Modelled from the spec: the project/tool registries produced by
`readManifest` (defined outside `env.go`). -/
structure Manifest where
  projects : String → Option ProjectEntry
  tools : String → Option ToolEntry

/-- Result of an `os.Stat` call: success, a does-not-exist error
(`os.IsNotExist`), or any other error. -/
inductive StatResult : Type where
  | statOk : StatResult
  | notExist : StatResult
  | otherError : String → StatResult

/-- Error classes of the environment-resolution layer.  Each constructor
corresponds to one class of error site in `env.go` (the spec's taxonomy):
`configError` for the missing root variable, `ioError` for failed
filesystem/symlink operations, `parseError` for malformed JSON,
`notFoundError` for a tool or project absent from the manifest, and
`unsupportedPlatformErr` (the Go `UnsupportedPlatformErr` struct) carrying
the rejected platform. -/
inductive Err : Type where
  | configError : String → Err
  | ioError : String → Err
  | parseError : String → Err
  | notFoundError : String → Err
  | unsupportedPlatformErr : Platform → Err

/-- The ambient world: every effect `env.go` performs is a lookup here.
`osEnv` is the real process environment (`none` = unset); `evalSymlinks`,
`stat` and `readFile` are the filesystem oracles; `unmarshalConfig` is the
JSON decoder (`json.Unmarshal` into `Config`); `readManifest` is the
manifest reader of the `util` package (defined outside `env.go`);
`toolName` is the constant `tool.Name`; `runtimeGOARCH`/`runtimeGOOS` are
the running machine's architecture and OS (`runtime.GOARCH`,
`runtime.GOOS`). -/
structure World where
  osEnv : String → Option String
  evalSymlinks : String → Except String String
  stat : String → StatResult
  readFile : String → Except String String
  unmarshalConfig : String → Except String Config
  readManifest : Except Err Manifest
  toolName : String
  runtimeGOARCH : String
  runtimeGOOS : String

/-- Models `os.Getenv`: an unset variable reads as `""`. -/
def World.getenv (w : World) (k : String) : String :=
  (w.osEnv k).getD ""

/-- Models `envutil.NewSnapshotFromOS`: a snapshot of the process
environment. -/
def NewSnapshotFromOS (w : World) : Snapshot :=
  w.osEnv

/-! ### The functions of `env.go` -/

/-- `rootEnv`: the name of the environment variable designating the root. -/
def rootEnv : String := "V23_ROOT"

/-- `V23Root` returns the root of the vanadium universe: the value of
`V23_ROOT` with symlinks resolved. -/
def V23Root (w : World) : Except Err String :=
  let root := w.getenv rootEnv
  if root = "" then
    Except.error (Err.configError (rootEnv ++ " is not set"))
  else
    match w.evalSymlinks root with
    | Except.error e =>
        Except.error (Err.ioError ("EvalSymlinks(" ++ root ++ ") failed: " ++ e))
    | Except.ok result => Except.ok result

/-- `LocalManifestFile` returns the path to the local manifest. -/
def LocalManifestFile (w : World) : Except Err String :=
  match V23Root w with
  | Except.error e => Except.error e
  | Except.ok root => Except.ok (filepathJoin [root, ".local_manifest"])

/-- `LocalSnapshotDir` returns the path to the local snapshot directory. -/
def LocalSnapshotDir (w : World) : Except Err String :=
  match V23Root w with
  | Except.error e => Except.error e
  | Except.ok root => Except.ok (filepathJoin [root, ".snapshot"])

/-- `ManifestDir` returns the path to the manifest directory. -/
def ManifestDir (w : World) : Except Err String :=
  match V23Root w with
  | Except.error e => Except.error e
  | Except.ok root => Except.ok (filepathJoin [root, ".manifest", "v2"])

/-- `ManifestFile` returns the path to the manifest file with the given
relative path. -/
def ManifestFile (w : World) (name : String) : Except Err String :=
  match ManifestDir w with
  | Except.error e => Except.error e
  | Except.ok dir => Except.ok (filepathJoin [dir, name])

/-- `RemoteSnapshotDir` returns the path to the remote snapshot directory. -/
def RemoteSnapshotDir (w : World) : Except Err String :=
  match ManifestDir w with
  | Except.error e => Except.error e
  | Except.ok manifestDir => Except.ok (filepathJoin [manifestDir, "snapshot"])

/-- `ResolveManifestPath` resolves the given manifest name to an absolute
path: an absolute name is returned unchanged; a non-empty relative name is
joined with the manifest directory; an empty name resolves to the local
manifest file when it exists and otherwise re-resolves with the literal
name `"default"`. -/
def ResolveManifestPath (w : World) (name : String) : Except Err String :=
  if name ≠ "" then
    if filepathIsAbs name then Except.ok name
    else ManifestFile w name
  else
    match LocalManifestFile w with
    | Except.error e => Except.error e
    | Except.ok path =>
      match w.stat path with
      | StatResult.statOk => Except.ok path
      | StatResult.notExist => ResolveManifestPath w "default"
      | StatResult.otherError m =>
          Except.error (Err.ioError ("Stat(" ++ path ++ ") failed: " ++ m))
termination_by (if name = "" then 1 else 0)
decreasing_by simp_all

/-- `DataDirPath` returns the path to the data directory of the given tool:
the owning project's path joined with the tool's data subdirectory.  An
empty tool name defaults to `"v23"`.  (When the tool is absent, the Go code
formats the *zero value*'s `Name` field — always `""` — into the message.) -/
def DataDirPath (w : World) (toolName : String) : Except Err String :=
  match w.readManifest with
  | Except.error e => Except.error e
  | Except.ok manifest =>
    let toolName2 := if toolName = "" then "v23" else toolName
    match manifest.tools toolName2 with
    | none =>
        Except.error (Err.notFoundError "tool \"\" not found in the manifest")
    | some t =>
      match manifest.projects t.Project with
      | none =>
          Except.error (Err.notFoundError
            ("project \"" ++ t.Project ++ "\" not found in the manifest"))
      | some project => Except.ok (filepathJoin [project.Path, t.Data])

/-- `LoadConfig` loads the tools configuration file into memory: read and
unmarshal `<data-dir>/conf.json` for the tool `tool.Name`. -/
def LoadConfig (w : World) : Except Err Config :=
  match DataDirPath w w.toolName with
  | Except.error e => Except.error e
  | Except.ok dataDir =>
    let configPath := filepathJoin [dataDir, "conf.json"]
    match w.readFile configPath with
    | Except.error e =>
        Except.error (Err.ioError ("ReadFile(" ++ configPath ++ ") failed: " ++ e))
    | Except.ok configBytes =>
      match w.unmarshalConfig configBytes with
      | Except.error e =>
          Except.error (Err.parseError
            ("Unmarshal(" ++ configBytes ++ ") failed: " ++ e))
      | Except.ok config => Except.ok config

/-- `setAndroidEnv` sets the environment variables used for android
cross-compilation and prepends the android cross-compilation tool
directory to the PATH. -/
def setAndroidEnv (w : World) (env : Snapshot) (platform : Platform) :
    Except Err Snapshot :=
  match V23Root w with
  | Except.error e => Except.error e
  | Except.ok root =>
    let env := env.set "CGO_ENABLED" "1"
    let env := env.set "GOOS" platform.OS
    let env := env.set "GOARCH" platform.Arch
    let env := env.set "GOARM" (stringTrimPre platform.SubArch "v")
    let path := env.getTokens "PATH" ':'
    let path := [filepathJoin [root, "environment", "android", "go", "bin"]] ++ path
    Except.ok (env.setTokens "PATH" path ':')

/-- `setArmEnv` sets the environment variables used for arm/linux
cross-compilation and prepends the two cross-compilation tool directories
to the PATH. -/
def setArmEnv (w : World) (env : Snapshot) (platform : Platform) :
    Except Err Snapshot :=
  match V23Root w with
  | Except.error e => Except.error e
  | Except.ok root =>
    let env := env.set "GOARCH" platform.Arch
    let env := env.set "GOARM" (stringTrimPre platform.SubArch "v")
    let env := env.set "GOOS" platform.OS
    let path := env.getTokens "PATH" ':'
    let path := [filepathJoin [root, "third_party", "cout", "xgcc", "cross_arm"],
                 filepathJoin [root, "third_party", "repos", "go_arm", "bin"]] ++ path
    Except.ok (env.setTokens "PATH" path ':')

/-- `setGoPath` appends the vanadium Go workspaces to the GOPATH variable. -/
def setGoPath (env : Snapshot) (root : String) (config : Config) : Snapshot :=
  let gopath := env.getTokens "GOPATH" ':'
  let gopath := gopath ++ config.GoWorkspaces.map
    (fun workspace => filepathJoin [root, workspace])
  env.setTokens "GOPATH" gopath ':'

/-- `setVdlPath` appends the vanadium VDL workspaces to the VDLPATH
variable. -/
def setVdlPath (env : Snapshot) (root : String) (config : Config) : Snapshot :=
  let vdlpath := env.getTokens "VDLPATH" ':'
  let vdlpath := vdlpath ++ config.VDLWorkspaces.map
    (fun workspace => filepathJoin [root, workspace])
  env.setTokens "VDLPATH" vdlpath ':'

/-- `setNaclEnv` sets the environment variables used for nacl
cross-compilation. -/
def setNaclEnv (env : Snapshot) (platform : Platform) : Snapshot :=
  let env := env.set "GOARCH" platform.Arch
  env.set "GOOS" platform.OS

/-- The bundled LevelDB directory probed by `setSyncbaseCgoEnv`. -/
def leveldbDir (root : String) : String :=
  filepathJoin [root, "third_party", "cout", "leveldb"]

/-- `setSyncbaseCgoEnv` enables cgo and, when the bundled LevelDB directory
exists, appends include/library flags to `CGO_CFLAGS`/`CGO_LDFLAGS`
(plus an rpath flag on linux).  The second string parameter is named `arch`
in the Go code although the call site passes the platform OS. -/
def setSyncbaseCgoEnv (w : World) (env : Snapshot) (root arch : String) :
    Except Err Snapshot :=
  let env := env.set "CGO_ENABLED" "1"
  let cflags := env.getTokens "CGO_CFLAGS" ' '
  let ldflags := env.getTokens "CGO_LDFLAGS" ' '
  let dir := leveldbDir root
  match w.stat dir with
  | StatResult.otherError m =>
      Except.error (Err.ioError ("Stat(" ++ dir ++ ") failed: " ++ m))
  | StatResult.notExist =>
      Except.ok ((env.setTokens "CGO_CFLAGS" cflags ' ').setTokens
        "CGO_LDFLAGS" ldflags ' ')
  | StatResult.statOk =>
      let cflags := cflags ++ [filepathJoin ["-I" ++ dir, "include"]]
      let ldflags := ldflags ++ [filepathJoin ["-L" ++ dir, "lib"]]
      let ldflags := if arch = "linux" then
          ldflags ++ ["-Wl,-rpath", filepathJoin [dir, "lib"]]
        else ldflags
      Except.ok ((env.setTokens "CGO_CFLAGS" cflags ' ').setTokens
        "CGO_LDFLAGS" ldflags ' ')

/-- `VanadiumEnvironment` returns the environment variables setting for
vanadium for the given target platform. -/
def VanadiumEnvironment (w : World) (platform : Platform) : Except Err Snapshot :=
  let env := NewSnapshotFromOS w
  match V23Root w with
  | Except.error e => Except.error e
  | Except.ok root =>
    match LoadConfig w with
    | Except.error e => Except.error e
    | Except.ok config =>
      let env := setGoPath env root config
      let env := setVdlPath env root config
      let envAfterCgo : Except Err Snapshot :=
        if platform.OS = "darwin" ∨ platform.OS = "linux" then
          setSyncbaseCgoEnv w env root platform.OS
        else Except.ok env
      match envAfterCgo with
      | Except.error e => Except.error e
      | Except.ok env =>
        if platform.Arch = w.runtimeGOARCH ∧ platform.OS = w.runtimeGOOS then
          Except.ok env
        else if platform.Arch = "arm" ∧ platform.OS = "linux" then
          setArmEnv w env platform
        else if platform.Arch = "arm" ∧ platform.OS = "android" then
          setAndroidEnv w env platform
        else if (platform.Arch = "386" ∨ platform.Arch = "amd64p32") ∧
            platform.OS = "nacl" then
          Except.ok (setNaclEnv env platform)
        else
          Except.error (Err.unsupportedPlatformErr platform)

/-- `VanadiumGitRepoHost` returns the URL that hosts vanadium git
repositories. -/
def VanadiumGitRepoHost : String :=
  "https://vanadium.googlesource.com/"

/-- `BuildCopRotationPath` returns the path to the build cop rotation
file. -/
def BuildCopRotationPath (w : World) : Except Err String :=
  match DataDirPath w w.toolName with
  | Except.error e => Except.error e
  | Except.ok dataDir => Except.ok (filepathJoin [dataDir, "buildcop.xml"])

/-! ### Concrete instances used by the witnesses -/

/-- A sample configuration with one Go and one VDL workspace. -/
def cfgBase : Config :=
  ⟨["release/go"], ["release/go/src"]⟩

/-- A sample manifest defining the `v23` tool owned by project `proj`. -/
def maniBase : Manifest :=
  ⟨fun p => if p = "proj" then some ⟨"/v23/tools"⟩ else none,
   fun t => if t = "v23" then some ⟨"v23", "proj", "data"⟩ else none⟩

/-- A well-formed sample world: `V23_ROOT` points through a symlink at
`/v23`, the configuration loads, nothing else exists on disk. -/
def wBase : World :=
  { osEnv := fun k =>
      if k = "V23_ROOT" then some "/link"
      else if k = "PATH" then some "/usr/bin:/bin"
      else if k = "GOPATH" then some "/home/go"
      else none
    evalSymlinks := fun s =>
      if s = "/link" then Except.ok "/v23" else Except.error "dangling"
    stat := fun _ => StatResult.notExist
    readFile := fun p =>
      if p = "/v23/tools/data/conf.json" then Except.ok "JSON"
      else Except.error "no such file"
    unmarshalConfig := fun b =>
      if b = "JSON" then Except.ok cfgBase else Except.error "bad json"
    readManifest := Except.ok maniBase
    toolName := "v23"
    runtimeGOARCH := "amd64"
    runtimeGOOS := "linux" }

/-- `wBase` with `V23_ROOT` unset. -/
def wUnset : World :=
  { wBase with osEnv := fun k => if k = "V23_ROOT" then none else wBase.osEnv k }

/-- `wBase` with a dangling `V23_ROOT` symlink. -/
def wBadLink : World :=
  { wBase with evalSymlinks := fun _ => Except.error "dangling" }

/-- `wBase` where every stat succeeds (LevelDB directory and local manifest
exist). -/
def wStatOk : World :=
  { wBase with stat := fun _ => StatResult.statOk }

/-- `wBase` whose manifest has no tools at all. -/
def wNoTool : World :=
  { wBase with readManifest := Except.ok ⟨maniBase.projects, fun _ => none⟩ }

/-- `wBase` whose manifest has no projects at all. -/
def wNoProject : World :=
  { wBase with readManifest := Except.ok ⟨fun _ => none, maniBase.tools⟩ }

/-- `wBase` where reading any file fails. -/
def wNoFile : World :=
  { wBase with readFile := fun _ => Except.error "no such file" }

/-- `wBase` where the configuration file holds malformed JSON. -/
def wBadJson : World :=
  { wBase with unmarshalConfig := fun _ => Except.error "bad json" }

/-! ### Supporting lemmas -/

theorem splitCh_ne_nil (c : Char) (l : List Char) : splitCh c l ≠ [] := by
  cases l with
  | nil => simp [splitCh]
  | cons a as =>
    simp only [splitCh]
    by_cases h : a = c
    · simp [h]
    · simp only [h, if_false]
      cases splitCh c as <;> simp

theorem splitCh_of_not_mem (c : Char) (l : List Char) (h : c ∉ l) :
    splitCh c l = [l] := by
  induction l with
  | nil => rfl
  | cons a as ih =>
    simp only [List.mem_cons, not_or] at h
    simp only [splitCh, if_neg (fun hac : a = c => h.1 hac.symm), ih h.2]

theorem splitCh_append_cons (c : Char) (l rest : List Char) (h : c ∉ l) :
    splitCh c (l ++ c :: rest) = l :: splitCh c rest := by
  induction l with
  | nil => simp [splitCh]
  | cons a as ih =>
    simp only [List.mem_cons, not_or] at h
    simp only [List.cons_append, splitCh, if_neg (fun hac : a = c => h.1 hac.symm),
      List.append_eq]
    rw [ih h.2]

/-- Round trip: splitting a join recovers the chunks, provided no chunk
contains the separator. -/
theorem splitCh_joinChunks (c : Char) (ls : List (List Char)) (hne : ls ≠ [])
    (h : ∀ l ∈ ls, c ∉ l) : splitCh c (joinChunks c ls) = ls := by
  induction ls with
  | nil => exact absurd rfl hne
  | cons l ls ih =>
    cases ls with
    | nil =>
      simp only [joinChunks]
      exact splitCh_of_not_mem c l (h l (List.mem_cons_self l []))
    | cons l2 ls2 =>
      simp only [joinChunks]
      rw [splitCh_append_cons c l _ (h l (List.mem_cons_self l _))]
      rw [ih (by simp) (fun x hx => h x (List.mem_cons_of_mem l hx))]

/-- Every chunk produced by `splitCh` is free of the separator. -/
theorem not_mem_of_mem_splitCh (c : Char) (s : List Char) :
    ∀ l ∈ splitCh c s, c ∉ l := by
  induction s with
  | nil =>
    intro l hl
    simp only [splitCh, List.mem_singleton] at hl
    simp [hl]
  | cons a as ih =>
    intro l hl
    by_cases hac : a = c
    · simp only [splitCh, if_pos hac, List.mem_cons] at hl
      rcases hl with h1 | h2
      · simp [h1]
      · exact ih l h2
    · simp only [splitCh, if_neg hac] at hl
      rcases hsp : splitCh c as with _ | ⟨b, bs⟩
      · exact absurd hsp (splitCh_ne_nil c as)
      · rw [hsp] at hl
        rcases List.mem_cons.mp hl with h1 | h2
        · subst h1
          intro hmem
          rcases List.mem_cons.mp hmem with h3 | h4
          · exact hac h3.symm
          · exact ih b (hsp ▸ List.mem_cons_self b bs) h4
        · exact ih l (hsp ▸ List.mem_cons_of_mem b h2)

theorem joinChunks_ne_nil (c : Char) (l : List Char) (ls : List (List Char))
    (h : l ≠ []) : joinChunks c (l :: ls) ≠ [] := by
  cases ls with
  | nil => simpa [joinChunks]
  | cons l2 ls2 => simp [joinChunks, h]

theorem mem_joinChunks (c : Char) (x : Char) (ls : List (List Char))
    (hx : x ∈ joinChunks c ls) : x = c ∨ ∃ l ∈ ls, x ∈ l := by
  induction ls with
  | nil => simp [joinChunks] at hx
  | cons l ls ih =>
    cases ls with
    | nil =>
      simp only [joinChunks] at hx
      exact Or.inr ⟨l, List.mem_cons_self l [], hx⟩
    | cons l2 ls2 =>
      simp only [joinChunks, List.mem_append, List.mem_cons] at hx
      rcases hx with h1 | h2 | h3
      · exact Or.inr ⟨l, List.mem_cons_self l _, h1⟩
      · exact Or.inl h2
      · rcases ih h3 with h4 | ⟨l3, hl3, hxl3⟩
        · exact Or.inl h4
        · exact Or.inr ⟨l3, List.mem_cons_of_mem l hl3, hxl3⟩

theorem splitTokens_joinTokens (c : Char) (ts : List String) (hne : ts ≠ [])
    (h : ∀ t ∈ ts, c ∉ t.data) : splitTokens c (joinTokens c ts) = ts := by
  unfold splitTokens joinTokens
  rw [show (String.mk (joinChunks c (ts.map String.data))).data
        = joinChunks c (ts.map String.data) from rfl]
  rw [splitCh_joinChunks c (ts.map String.data) (by simpa using hne)
    (by intro l hl
        rcases List.mem_map.mp hl with ⟨t, ht, rfl⟩
        exact h t ht)]
  rw [List.map_map]
  have : (String.mk ∘ String.data) = id := by
    funext s
    cases s
    rfl
  rw [this, List.map_id]

theorem Snapshot.get_set (s : Snapshot) (k v k2 : String) :
    (s.set k v).get k2 = if k2 = k then v else s.get k2 := by
  unfold Snapshot.get Snapshot.set
  by_cases h : k2 = k <;> simp [h]

theorem Snapshot.apply_set (s : Snapshot) (k v k2 : String) :
    s.set k v k2 = if k2 = k then some v else s k2 := rfl

theorem Snapshot.get_set_same (s : Snapshot) (k v : String) :
    (s.set k v).get k = v := by
  simp [Snapshot.get_set]

theorem Snapshot.get_set_ne (s : Snapshot) (k v k2 : String) (h : k2 ≠ k) :
    (s.set k v).get k2 = s.get k2 := by
  simp [Snapshot.get_set, h]

theorem Snapshot.getTokens_set_ne (s : Snapshot) (k v k2 : String) (sep : Char)
    (h : k2 ≠ k) : (s.set k v).getTokens k2 sep = s.getTokens k2 sep := by
  unfold Snapshot.getTokens
  rw [Snapshot.get_set_ne s k v k2 h]

/-- Round trip: reading back a token list just written, provided the list is
non-empty, its joined value is non-empty and no token contains the
separator. -/
theorem Snapshot.getTokens_setTokens_same (s : Snapshot) (k : String)
    (ts : List String) (sep : Char) (hne : ts ≠ [])
    (hjoin : joinTokens sep ts ≠ "")
    (h : ∀ t ∈ ts, sep ∉ t.data) :
    (s.setTokens k ts sep).getTokens k sep = ts := by
  unfold Snapshot.setTokens Snapshot.getTokens
  rw [Snapshot.get_set_same]
  simp only [if_neg hjoin]
  exact splitTokens_joinTokens sep ts hne h

theorem Snapshot.setTokens_apply_ne (s : Snapshot) (k : String) (ts : List String)
    (sep : Char) (k2 : String) (h : k2 ≠ k) : s.setTokens k ts sep k2 = s k2 := by
  unfold Snapshot.setTokens Snapshot.set
  simp [h]

/-- Tokens produced by a token-list read never contain the separator. -/
theorem getTokens_sep_not_mem (s : Snapshot) (k : String) (sep : Char) :
    ∀ t ∈ s.getTokens k sep, sep ∉ t.data := by
  unfold Snapshot.getTokens
  by_cases h : s.get k = ""
  · simp [h]
  · simp only [if_neg h]
    intro t ht
    rcases List.mem_map.mp ht with ⟨l, hl, rfl⟩
    exact not_mem_of_mem_splitCh sep (s.get k).data l hl

theorem Snapshot.get_setTokens_ne (s : Snapshot) (k : String) (ts : List String)
    (sep : Char) (k2 : String) (h : k2 ≠ k) :
    (s.setTokens k ts sep).get k2 = s.get k2 :=
  Snapshot.get_set_ne s k (joinTokens sep ts) k2 h

theorem Snapshot.getTokens_setTokens_ne (s : Snapshot) (k : String)
    (ts : List String) (sep : Char) (k2 : String) (sep2 : Char) (h : k2 ≠ k) :
    (s.setTokens k ts sep).getTokens k2 sep2 = s.getTokens k2 sep2 :=
  Snapshot.getTokens_set_ne s k (joinTokens sep ts) k2 sep2 h

theorem string_ne_empty_iff_data (t : String) : t ≠ "" ↔ t.data ≠ [] := by
  cases t with
  | mk l =>
    constructor
    · intro h hl
      subst hl
      exact h rfl
    · intro h hl
      apply h
      simpa using congrArg String.data hl

theorem joinTokens_ne_empty (c : Char) (t : String) (ts : List String)
    (ht : t ≠ "") : joinTokens c (t :: ts) ≠ "" := by
  rw [string_ne_empty_iff_data]
  unfold joinTokens
  simpa using joinChunks_ne_nil c t.data (ts.map String.data)
    ((string_ne_empty_iff_data t).mp ht)

theorem filepathJoin_data_mem (parts : List String) (x : Char)
    (hx : x ∈ (filepathJoin parts).data) :
    x = '/' ∨ ∃ p ∈ parts, x ∈ p.data := by
  unfold filepathJoin at hx
  rcases mem_joinChunks '/' x _ hx with h1 | ⟨l, hl, hxl⟩
  · exact Or.inl h1
  · rcases List.mem_map.mp hl with ⟨p, hp, rfl⟩
    exact Or.inr ⟨p, (List.mem_filter.mp hp).1, hxl⟩

theorem filepathJoin_ne_empty (parts : List String) (p : String)
    (hp : p ∈ parts) (hpe : p ≠ "") : filepathJoin parts ≠ "" := by
  unfold filepathJoin
  have hmem : p.data ∈ (parts.filter (fun q => q ≠ "")).map String.data :=
    List.mem_map.mpr ⟨p, List.mem_filter.mpr ⟨hp, by simpa using hpe⟩, rfl⟩
  rcases hlist : (parts.filter (fun q => q ≠ "")).map String.data with _ | ⟨l, ls⟩
  · rw [hlist] at hmem
    simp at hmem
  · intro hcon
    have hdata : joinChunks '/' (l :: ls) = [] := by
      have := congrArg String.data hcon
      simpa using this
    have hlne : ∀ m ∈ l :: ls, m ≠ [] := by
      intro m hm
      rw [← hlist] at hm
      rcases List.mem_map.mp hm with ⟨q, hq, rfl⟩
      have hqne : q ≠ "" := by simpa using (List.mem_filter.mp hq).2
      intro hmd
      apply hqne
      cases q with
      | mk data =>
        subst hmd
        rfl
    exact joinChunks_ne_nil '/' l ls (hlne l (List.mem_cons_self l ls)) hdata

theorem sep_not_mem_filepathJoin (c : Char) (parts : List String) (hc : c ≠ '/')
    (h : ∀ p ∈ parts, c ∉ p.data) : c ∉ (filepathJoin parts).data := by
  intro hx
  rcases filepathJoin_data_mem parts c hx with h1 | ⟨p, hp, hcp⟩
  · exact hc h1
  · exact h p hp hcp

/-- Joining the chunks of a split recovers the original list, always. -/
theorem joinChunks_splitCh (c : Char) (l : List Char) :
    joinChunks c (splitCh c l) = l := by
  induction l with
  | nil => rfl
  | cons a as ih =>
    rcases hsp : splitCh c as with _ | ⟨b, bs⟩
    · exact absurd hsp (splitCh_ne_nil c as)
    · rw [hsp] at ih
      by_cases hac : a = c
      · subst hac
        simp only [splitCh, if_pos rfl, hsp, joinChunks]
        simpa using ih
      · simp only [splitCh, if_neg hac, hsp]
        cases bs with
        | nil =>
          simp only [joinChunks] at ih ⊢
          rw [ih]
        | cons b2 bs2 =>
          simp only [joinChunks, List.cons_append] at ih ⊢
          rw [ih]

/-- A token-list read never yields the singleton list of the empty string. -/
theorem getTokens_ne_singleton_empty (s : Snapshot) (k : String) (sep : Char) :
    s.getTokens k sep ≠ [""] := by
  unfold Snapshot.getTokens
  by_cases h : s.get k = ""
  · simp [h]
  · simp only [if_neg h]
    intro hcon
    have h2 : splitCh sep (s.get k).data = [[]] := by
      have h5 := congrArg (List.map String.data) hcon
      have hcomp : (String.data ∘ String.mk) = id := funext (fun _ => rfl)
      simpa [splitTokens, List.map_map, hcomp] using h5
    have h3 : (s.get k).data = [] := by
      have h4 := joinChunks_splitCh sep (s.get k).data
      rw [h2] at h4
      simpa [joinChunks] using h4.symm
    exact (string_ne_empty_iff_data (s.get k)).mp h h3

theorem joinTokens_ne_empty_of (c : Char) (ts : List String) (h1 : ts ≠ [])
    (h2 : ts ≠ [""]) : joinTokens c ts ≠ "" := by
  rcases ts with _ | ⟨t, rest⟩
  · exact absurd rfl h1
  · rcases rest with _ | ⟨r, rs⟩
    · apply joinTokens_ne_empty
      intro ht
      exact h2 (by rw [ht])
    · rw [string_ne_empty_iff_data]
      unfold joinTokens
      simp [joinChunks]

/-- Prepending entries to a token list and reading it back: the new entries
appear first, followed by all pre-existing tokens, provided the first new
entry is non-empty and no new entry contains the separator. -/
theorem getTokens_setTokens_prepend (s : Snapshot) (k : String) (sep : Char)
    (t0 : String) (rest : List String) (ht0 : t0 ≠ "")
    (hnew : ∀ t ∈ t0 :: rest, sep ∉ t.data) :
    (s.setTokens k ((t0 :: rest) ++ s.getTokens k sep) sep).getTokens k sep
      = (t0 :: rest) ++ s.getTokens k sep := by
  apply Snapshot.getTokens_setTokens_same
  · simp
  · rw [List.cons_append]
    exact joinTokens_ne_empty sep t0 _ ht0
  · intro t ht
    rcases List.mem_append.mp ht with hm1 | hm2
    · exact hnew t hm1
    · exact getTokens_sep_not_mem s k sep t hm2

/-- Appending entries to a token list and reading it back: all pre-existing
tokens appear first, followed by the new entries, provided the new entries
are non-empty and contain no separator. -/
theorem getTokens_setTokens_append (s : Snapshot) (k : String) (sep : Char)
    (new : List String) (hnew : ∀ t ∈ new, sep ∉ t.data ∧ t ≠ "") :
    (s.setTokens k (s.getTokens k sep ++ new) sep).getTokens k sep
      = s.getTokens k sep ++ new := by
  by_cases hemp : s.getTokens k sep ++ new = []
  · rw [hemp]
    unfold Snapshot.setTokens Snapshot.getTokens
    rw [Snapshot.get_set_same]
    simp [joinTokens, joinChunks]
  · apply Snapshot.getTokens_setTokens_same _ _ _ _ hemp
    · apply joinTokens_ne_empty_of _ _ hemp
      intro hcon
      rcases hold : s.getTokens k sep with _ | ⟨o, os⟩
      · rw [hold, List.nil_append] at hcon
        have hmem : ("" : String) ∈ new := by
          rw [hcon]
          exact List.mem_singleton_self _
        exact (hnew "" hmem).2 rfl
      · rw [hold] at hcon
        simp only [List.cons_append, List.cons.injEq] at hcon
        rcases hcon with ⟨ho, hos⟩
        rcases List.append_eq_nil.mp hos with ⟨hos1, _⟩
        apply getTokens_ne_singleton_empty s k sep
        rw [hold, ho, hos1]
    · intro t ht
      rcases List.mem_append.mp ht with hm1 | hm2
      · exact getTokens_sep_not_mem s k sep t hm1
      · exact (hnew t hm2).1

/-- Writing back exactly the token list just read leaves the reading
unchanged. -/
theorem getTokens_setTokens_self (s : Snapshot) (k : String) (sep : Char) :
    (s.setTokens k (s.getTokens k sep) sep).getTokens k sep
      = s.getTokens k sep := by
  have h := getTokens_setTokens_append s k sep [] (by simp)
  simpa using h

theorem string_data_append (s t : String) : (s ++ t).data = s.data ++ t.data := by
  cases s
  cases t
  rfl

theorem append_ne_empty_left (s t : String) (hs : s ≠ "") : s ++ t ≠ "" := by
  rw [string_ne_empty_iff_data] at hs ⊢
  rw [string_data_append]
  simp [hs]

theorem getTokens_congr (s1 s2 : Snapshot) (k : String) (sep : Char)
    (h : s1 k = s2 k) : s1.getTokens k sep = s2.getTokens k sep := by
  unfold Snapshot.getTokens Snapshot.get
  rw [h]

theorem get_congr (s1 s2 : Snapshot) (k : String) (h : s1 k = s2 k) :
    s1.get k = s2.get k := by
  unfold Snapshot.get
  rw [h]

/-- `setSyncbaseCgoEnv` never errors when `stat` does not report an
unexpected error. -/
theorem setSyncbaseCgoEnv_no_error (w : World) (env : Snapshot)
    (root arch : String)
    (hstat : ∀ m, w.stat (leveldbDir root) ≠ StatResult.otherError m)
    (e : Err) (h : setSyncbaseCgoEnv w env root arch = Except.error e) :
    False := by
  simp only [setSyncbaseCgoEnv] at h
  rcases hst : w.stat (leveldbDir root) with _ | _ | m
  · rw [hst] at h
    exact Except.noConfusion h
  · rw [hst] at h
    exact Except.noConfusion h
  · exact hstat m hst

/-- `setSyncbaseCgoEnv` only writes the three CGO variables. -/
theorem setSyncbaseCgoEnv_frame (w : World) (env : Snapshot) (root arch : String)
    (env2 : Snapshot) (h : setSyncbaseCgoEnv w env root arch = Except.ok env2) :
    ∀ k, k ≠ "CGO_ENABLED" → k ≠ "CGO_CFLAGS" → k ≠ "CGO_LDFLAGS" →
      env2 k = env k := by
  simp only [setSyncbaseCgoEnv] at h
  rcases hst : w.stat (leveldbDir root) with _ | _ | m
  · rw [hst] at h
    injection h with hchain
    subst hchain
    intro k hk1 hk2 hk3
    rw [Snapshot.setTokens_apply_ne _ _ _ _ _ hk3,
      Snapshot.setTokens_apply_ne _ _ _ _ _ hk2,
      Snapshot.apply_set, if_neg hk1]
  · rw [hst] at h
    injection h with hchain
    subst hchain
    intro k hk1 hk2 hk3
    rw [Snapshot.setTokens_apply_ne _ _ _ _ _ hk3,
      Snapshot.setTokens_apply_ne _ _ _ _ _ hk2,
      Snapshot.apply_set, if_neg hk1]
  · rw [hst] at h
    exact Except.noConfusion h

/-- `setGoPath` followed by `setVdlPath` only writes GOPATH and VDLPATH. -/
theorem preEnv_apply_ne (w : World) (root : String) (config : Config)
    (k : String) (h1 : k ≠ "GOPATH") (h2 : k ≠ "VDLPATH") :
    setVdlPath (setGoPath (NewSnapshotFromOS w) root config) root config k
      = NewSnapshotFromOS w k := by
  unfold setVdlPath setGoPath
  rw [Snapshot.setTokens_apply_ne _ _ _ _ _ h2,
    Snapshot.setTokens_apply_ne _ _ _ _ _ h1]

/-- The workspace steps leave PATH untouched. -/
theorem preEnv_path (w : World) (root : String) (config : Config) :
    (setVdlPath (setGoPath (NewSnapshotFromOS w) root config)
        root config).getTokens "PATH" ':'
      = (NewSnapshotFromOS w).getTokens "PATH" ':' :=
  getTokens_congr _ _ "PATH" ':'
    (preEnv_apply_ne w root config "PATH" (by decide) (by decide))

/-- What `setArmEnv` does: sets GOARCH/GOARM/GOOS and prepends the two
cross-toolchain directories, in order, before the existing PATH tokens. -/
theorem setArmEnv_spec (w : World) (env : Snapshot) (platform : Platform)
    (root : String) (hroot : V23Root w = Except.ok root)
    (hcolon : ':' ∉ root.data) :
    ∃ env2, setArmEnv w env platform = Except.ok env2 ∧
      env2.get "GOARCH" = platform.Arch ∧
      env2.get "GOOS" = platform.OS ∧
      env2.get "GOARM" = stringTrimPre platform.SubArch "v" ∧
      env2.getTokens "PATH" ':'
        = [filepathJoin [root, "third_party", "cout", "xgcc", "cross_arm"],
           filepathJoin [root, "third_party", "repos", "go_arm", "bin"]]
          ++ env.getTokens "PATH" ':' := by
  have henv : setArmEnv w env platform = Except.ok
      ((((env.set "GOARCH" platform.Arch).set "GOARM"
          (stringTrimPre platform.SubArch "v")).set "GOOS" platform.OS).setTokens
        "PATH"
        ([filepathJoin [root, "third_party", "cout", "xgcc", "cross_arm"],
          filepathJoin [root, "third_party", "repos", "go_arm", "bin"]]
          ++ (((env.set "GOARCH" platform.Arch).set "GOARM"
              (stringTrimPre platform.SubArch "v")).set "GOOS"
            platform.OS).getTokens "PATH" ':') ':') := by
    simp only [setArmEnv, hroot]
  refine ⟨_, henv, ?_, ?_, ?_, ?_⟩
  · rw [Snapshot.get_setTokens_ne _ "PATH" _ ':' "GOARCH" (by decide),
      Snapshot.get_set_ne _ "GOOS" _ "GOARCH" (by decide),
      Snapshot.get_set_ne _ "GOARM" _ "GOARCH" (by decide),
      Snapshot.get_set_same]
  · rw [Snapshot.get_setTokens_ne _ "PATH" _ ':' "GOOS" (by decide),
      Snapshot.get_set_same]
  · rw [Snapshot.get_setTokens_ne _ "PATH" _ ':' "GOARM" (by decide),
      Snapshot.get_set_ne _ "GOOS" _ "GOARM" (by decide),
      Snapshot.get_set_same]
  · rw [getTokens_setTokens_prepend _ "PATH" ':' _ _
      (filepathJoin_ne_empty _ "third_party" (by simp) (by decide))
      (by
        intro t ht
        simp only [List.mem_cons, List.not_mem_nil, or_false] at ht
        rcases ht with rfl | rfl
        · apply sep_not_mem_filepathJoin ':' _ (by decide)
          intro p hp
          simp only [List.mem_cons, List.not_mem_nil, or_false] at hp
          rcases hp with rfl | rfl | rfl | rfl | rfl
          · exact hcolon
          · decide
          · decide
          · decide
          · decide
        · apply sep_not_mem_filepathJoin ':' _ (by decide)
          intro p hp
          simp only [List.mem_cons, List.not_mem_nil, or_false] at hp
          rcases hp with rfl | rfl | rfl | rfl | rfl
          · exact hcolon
          · decide
          · decide
          · decide
          · decide)]
    rw [Snapshot.getTokens_set_ne _ "GOOS" _ "PATH" ':' (by decide),
      Snapshot.getTokens_set_ne _ "GOARM" _ "PATH" ':' (by decide),
      Snapshot.getTokens_set_ne _ "GOARCH" _ "PATH" ':' (by decide)]

/-- What `setAndroidEnv` does: enables cgo, sets GOOS/GOARCH/GOARM and
prepends the android toolchain directory before the existing PATH
tokens. -/
theorem setAndroidEnv_spec (w : World) (env : Snapshot) (platform : Platform)
    (root : String) (hroot : V23Root w = Except.ok root)
    (hcolon : ':' ∉ root.data) :
    ∃ env2, setAndroidEnv w env platform = Except.ok env2 ∧
      env2.get "CGO_ENABLED" = "1" ∧
      env2.get "GOOS" = platform.OS ∧
      env2.get "GOARCH" = platform.Arch ∧
      env2.get "GOARM" = stringTrimPre platform.SubArch "v" ∧
      env2.getTokens "PATH" ':'
        = [filepathJoin [root, "environment", "android", "go", "bin"]]
          ++ env.getTokens "PATH" ':' := by
  have henv : setAndroidEnv w env platform = Except.ok
      (((((env.set "CGO_ENABLED" "1").set "GOOS" platform.OS).set "GOARCH"
          platform.Arch).set "GOARM"
          (stringTrimPre platform.SubArch "v")).setTokens "PATH"
        ([filepathJoin [root, "environment", "android", "go", "bin"]]
          ++ ((((env.set "CGO_ENABLED" "1").set "GOOS" platform.OS).set "GOARCH"
              platform.Arch).set "GOARM"
            (stringTrimPre platform.SubArch "v")).getTokens "PATH" ':') ':') := by
    simp only [setAndroidEnv, hroot]
  refine ⟨_, henv, ?_, ?_, ?_, ?_, ?_⟩
  · rw [Snapshot.get_setTokens_ne _ "PATH" _ ':' "CGO_ENABLED" (by decide),
      Snapshot.get_set_ne _ "GOARM" _ "CGO_ENABLED" (by decide),
      Snapshot.get_set_ne _ "GOARCH" _ "CGO_ENABLED" (by decide),
      Snapshot.get_set_ne _ "GOOS" _ "CGO_ENABLED" (by decide),
      Snapshot.get_set_same]
  · rw [Snapshot.get_setTokens_ne _ "PATH" _ ':' "GOOS" (by decide),
      Snapshot.get_set_ne _ "GOARM" _ "GOOS" (by decide),
      Snapshot.get_set_ne _ "GOARCH" _ "GOOS" (by decide),
      Snapshot.get_set_same]
  · rw [Snapshot.get_setTokens_ne _ "PATH" _ ':' "GOARCH" (by decide),
      Snapshot.get_set_ne _ "GOARM" _ "GOARCH" (by decide),
      Snapshot.get_set_same]
  · rw [Snapshot.get_setTokens_ne _ "PATH" _ ':' "GOARM" (by decide),
      Snapshot.get_set_same]
  · rw [getTokens_setTokens_prepend _ "PATH" ':' _ _
      (filepathJoin_ne_empty _ "environment" (by simp) (by decide))
      (by
        intro t ht
        simp only [List.mem_cons, List.not_mem_nil, or_false] at ht
        rcases ht with rfl
        apply sep_not_mem_filepathJoin ':' _ (by decide)
        intro p hp
        simp only [List.mem_cons, List.not_mem_nil, or_false] at hp
        rcases hp with rfl | rfl | rfl | rfl | rfl
        · exact hcolon
        · decide
        · decide
        · decide
        · decide)]
    rw [Snapshot.getTokens_set_ne _ "GOARM" _ "PATH" ':' (by decide),
      Snapshot.getTokens_set_ne _ "GOARCH" _ "PATH" ':' (by decide),
      Snapshot.getTokens_set_ne _ "GOOS" _ "PATH" ':' (by decide),
      Snapshot.getTokens_set_ne _ "CGO_ENABLED" _ "PATH" ':' (by decide)]

/-! ### The claims -/

/-- Claim C6: root lookup (`V23Root`) — and therefore environment
construction and every derived-path helper — fails with a `ConfigError`
when the designating environment variable `V23_ROOT` is unset or empty;
it fails with an `IOError` when the path cannot be canonicalized by
symlink resolution; otherwise it returns the symlink-resolved canonical
path. -/
theorem c6_root_lookup (w : World) (name : String) (platform : Platform) :
    (w.getenv rootEnv = "" →
      V23Root w = Except.error (Err.configError (rootEnv ++ " is not set")) ∧
      LocalManifestFile w = Except.error (Err.configError (rootEnv ++ " is not set")) ∧
      LocalSnapshotDir w = Except.error (Err.configError (rootEnv ++ " is not set")) ∧
      ManifestDir w = Except.error (Err.configError (rootEnv ++ " is not set")) ∧
      ManifestFile w name = Except.error (Err.configError (rootEnv ++ " is not set")) ∧
      RemoteSnapshotDir w = Except.error (Err.configError (rootEnv ++ " is not set")) ∧
      VanadiumEnvironment w platform =
        Except.error (Err.configError (rootEnv ++ " is not set"))) ∧
    (∀ e, w.getenv rootEnv ≠ "" →
      w.evalSymlinks (w.getenv rootEnv) = Except.error e →
      V23Root w = Except.error (Err.ioError
        ("EvalSymlinks(" ++ w.getenv rootEnv ++ ") failed: " ++ e))) ∧
    (∀ result, w.getenv rootEnv ≠ "" →
      w.evalSymlinks (w.getenv rootEnv) = Except.ok result →
      V23Root w = Except.ok result) := by
  refine ⟨?_, ?_, ?_⟩
  · intro h
    have hv : V23Root w = Except.error (Err.configError (rootEnv ++ " is not set")) := by
      simp [V23Root, h]
    exact ⟨hv,
      by simp [LocalManifestFile, hv],
      by simp [LocalSnapshotDir, hv],
      by simp [ManifestDir, hv],
      by simp [ManifestFile, ManifestDir, hv],
      by simp [RemoteSnapshotDir, ManifestDir, hv],
      by simp [VanadiumEnvironment, hv]⟩
  · intro e hne hev
    simp [V23Root, if_neg hne, hev]
  · intro result hne hev
    simp [V23Root, if_neg hne, hev]

/-- Witness for C6: at concrete worlds, the unset-variable, dangling-symlink
and successful cases of root lookup. -/
theorem c6_root_lookup_witness :
    V23Root wUnset = Except.error (Err.configError "V23_ROOT is not set") ∧
    V23Root wBadLink =
      Except.error (Err.ioError "EvalSymlinks(/link) failed: dangling") ∧
    V23Root wBase = Except.ok "/v23" :=
  ⟨((c6_root_lookup wUnset "" ⟨"", "", ""⟩).1 rfl).1,
   (c6_root_lookup wBadLink "" ⟨"", "", ""⟩).2.1 "dangling" (by decide) rfl,
   (c6_root_lookup wBase "" ⟨"", "", ""⟩).2.2 "/v23" (by decide) rfl⟩

/-- Claim C7: manifest name resolution (`ResolveManifestPath`) returns an
absolute name unchanged (hence resolving an absolute name twice yields the
same path — idempotence); joins a non-empty relative name with the manifest
directory; and for the empty name returns the local manifest file when it
exists, otherwise resolving exactly once more with the literal name
`"default"`, yielding `<root>/.manifest/v2/default`. -/
theorem c7_resolve_manifest_path (w : World) (name : String) :
    (filepathIsAbs name = true →
      ResolveManifestPath w name = Except.ok name ∧
      (∀ p, ResolveManifestPath w name = Except.ok p →
        ResolveManifestPath w p = Except.ok p)) ∧
    (name ≠ "" → filepathIsAbs name = false →
      ResolveManifestPath w name = ManifestFile w name) ∧
    (∀ root, name = "" → V23Root w = Except.ok root →
      (w.stat (filepathJoin [root, ".local_manifest"]) = StatResult.statOk →
        ResolveManifestPath w name =
          Except.ok (filepathJoin [root, ".local_manifest"])) ∧
      (w.stat (filepathJoin [root, ".local_manifest"]) = StatResult.notExist →
        ResolveManifestPath w name = ResolveManifestPath w "default" ∧
        ResolveManifestPath w name =
          Except.ok (filepathJoin [filepathJoin [root, ".manifest", "v2"],
            "default"]))) := by
  refine ⟨?_, ?_, ?_⟩
  · intro habs
    have hne : name ≠ "" := by
      intro hcon
      subst hcon
      simp [filepathIsAbs] at habs
    have hres : ResolveManifestPath w name = Except.ok name := by
      rw [ResolveManifestPath.eq_def, if_pos hne, if_pos habs]
    refine ⟨hres, ?_⟩
    intro p hp
    rw [hres] at hp
    injection hp with hp2
    subst hp2
    exact hres
  · intro hne habsf
    rw [ResolveManifestPath.eq_def, if_pos hne,
      if_neg (by simp [habsf] : ¬(filepathIsAbs name = true))]
  · intro root hname hroot
    subst hname
    constructor
    · intro hstat
      rw [ResolveManifestPath.eq_def, if_neg (by simp : ¬("" : String) ≠ "")]
      simp [LocalManifestFile, hroot, hstat]
    · intro hstat
      have hstep : ResolveManifestPath w "" = ResolveManifestPath w "default" := by
        rw [ResolveManifestPath.eq_def, if_neg (by simp : ¬("" : String) ≠ "")]
        simp [LocalManifestFile, hroot, hstat]
      have hdef : ResolveManifestPath w "default" =
          Except.ok (filepathJoin [filepathJoin [root, ".manifest", "v2"],
            "default"]) := by
        rw [ResolveManifestPath.eq_def,
          if_pos (by decide : ("default" : String) ≠ ""),
          if_neg (by decide : ¬(filepathIsAbs "default" = true))]
        simp [ManifestFile, ManifestDir, hroot]
      exact ⟨hstep, hstep.trans hdef⟩

/-- Witness for C7: resolution of an absolute name, a relative name, the
empty name with an existing local manifest, and the empty name falling back
to `"default"`. -/
theorem c7_resolve_manifest_path_witness :
    ResolveManifestPath wBase "/abs" = Except.ok "/abs" ∧
    ResolveManifestPath wBase "rel" = ManifestFile wBase "rel" ∧
    ResolveManifestPath wStatOk "" =
      Except.ok (filepathJoin ["/v23", ".local_manifest"]) ∧
    ResolveManifestPath wBase "" =
      Except.ok (filepathJoin [filepathJoin ["/v23", ".manifest", "v2"],
        "default"]) :=
  ⟨((c7_resolve_manifest_path wBase "/abs").1 (by decide)).1,
   (c7_resolve_manifest_path wBase "rel").2.1 (by decide) (by decide),
   ((c7_resolve_manifest_path wStatOk "").2.2 "/v23" rfl rfl).1 rfl,
   (((c7_resolve_manifest_path wBase "").2.2 "/v23" rfl rfl).2 rfl).2⟩

/-- Claim C9: `DataDirPath` with an empty tool name behaves exactly as if
the tool name were the literal `"v23"`, so any manifest is assumed to
provide a `"v23"` tool and lookup fails when it does not. -/
theorem c9_datadir_default_tool (w : World) :
    DataDirPath w "" = DataDirPath w "v23" ∧
    (∀ manifest, w.readManifest = Except.ok manifest →
      manifest.tools "v23" = none →
      DataDirPath w "" =
        Except.error (Err.notFoundError "tool \"\" not found in the manifest")) := by
  constructor
  · rfl
  · intro manifest hm hnone
    simp [DataDirPath, hm, hnone]

/-- Witness for C9: a manifest without a `"v23"` tool makes the
empty-tool-name lookup fail. -/
theorem c9_datadir_default_tool_witness :
    DataDirPath wNoTool "" =
      Except.error (Err.notFoundError "tool \"\" not found in the manifest") :=
  (c9_datadir_default_tool wNoTool).2 ⟨maniBase.projects, fun _ => none⟩ rfl rfl

/-- Claim C8: config load resolves the per-tool data directory as the owning
project's path joined with the tool's data subdirectory, failing with
`NotFoundError` when the tool or its owning project is absent from the
manifest's registries; it then reads `<data-dir>/conf.json`, failing with
`IOError` when the file cannot be read, `ParseError` when its content is
malformed JSON, and otherwise returns the parsed configuration. -/
theorem c8_load_config (w : World) :
    ∀ manifest, w.readManifest = Except.ok manifest →
    (manifest.tools (if w.toolName = "" then "v23" else w.toolName) = none →
      LoadConfig w =
        Except.error (Err.notFoundError "tool \"\" not found in the manifest")) ∧
    (∀ t, manifest.tools (if w.toolName = "" then "v23" else w.toolName) = some t →
      (manifest.projects t.Project = none →
        LoadConfig w = Except.error (Err.notFoundError
          ("project \"" ++ t.Project ++ "\" not found in the manifest"))) ∧
      (∀ proj, manifest.projects t.Project = some proj →
        DataDirPath w w.toolName = Except.ok (filepathJoin [proj.Path, t.Data]) ∧
        (∀ e, w.readFile (filepathJoin [filepathJoin [proj.Path, t.Data],
            "conf.json"]) = Except.error e →
          LoadConfig w = Except.error (Err.ioError
            ("ReadFile(" ++ filepathJoin [filepathJoin [proj.Path, t.Data],
              "conf.json"] ++ ") failed: " ++ e))) ∧
        (∀ bytes, w.readFile (filepathJoin [filepathJoin [proj.Path, t.Data],
            "conf.json"]) = Except.ok bytes →
          (∀ e, w.unmarshalConfig bytes = Except.error e →
            LoadConfig w = Except.error (Err.parseError
              ("Unmarshal(" ++ bytes ++ ") failed: " ++ e))) ∧
          (∀ config, w.unmarshalConfig bytes = Except.ok config →
            LoadConfig w = Except.ok config)))) := by
  intro manifest hm
  constructor
  · intro hnone
    simp [LoadConfig, DataDirPath, hm, hnone]
  · intro t ht
    constructor
    · intro hnone
      simp [LoadConfig, DataDirPath, hm, ht, hnone]
    · intro proj hproj
      have hdd : DataDirPath w w.toolName =
          Except.ok (filepathJoin [proj.Path, t.Data]) := by
        simp [DataDirPath, hm, ht, hproj]
      refine ⟨hdd, ?_, ?_⟩
      · intro e hread
        simp [LoadConfig, hdd, hread]
      · intro bytes hread
        constructor
        · intro e hum
          simp [LoadConfig, hdd, hread, hum]
        · intro config hum
          simp [LoadConfig, hdd, hread, hum]

/-- Witness for C8: the successful load and each failure class at concrete
worlds. -/
theorem c8_load_config_witness :
    LoadConfig wBase = Except.ok cfgBase ∧
    LoadConfig wNoTool =
      Except.error (Err.notFoundError "tool \"\" not found in the manifest") ∧
    LoadConfig wNoProject = Except.error
      (Err.notFoundError "project \"proj\" not found in the manifest") ∧
    LoadConfig wNoFile = Except.error
      (Err.ioError "ReadFile(/v23/tools/data/conf.json) failed: no such file") ∧
    LoadConfig wBadJson = Except.error
      (Err.parseError "Unmarshal(JSON) failed: bad json") :=
  ⟨((((c8_load_config wBase maniBase rfl).2 ⟨"v23", "proj", "data"⟩ rfl).2
      ⟨"/v23/tools"⟩ rfl).2.2 "JSON" rfl).2 cfgBase rfl,
   (c8_load_config wNoTool ⟨maniBase.projects, fun _ => none⟩ rfl).1 rfl,
   ((c8_load_config wNoProject ⟨fun _ => none, maniBase.tools⟩ rfl).2
      ⟨"v23", "proj", "data"⟩ rfl).1 rfl,
   ((((c8_load_config wNoFile maniBase rfl).2 ⟨"v23", "proj", "data"⟩ rfl).2
      ⟨"/v23/tools"⟩ rfl).2.1 "no such file" rfl),
   ((((c8_load_config wBadJson maniBase rfl).2 ⟨"v23", "proj", "data"⟩ rfl).2
      ⟨"/v23/tools"⟩ rfl).2.2 "JSON" rfl).1 "bad json" rfl⟩

/-- Claim C5: environment construction appends, for each configured Go
workspace (resp. VDL workspace), the root joined with the relative
workspace to the end of the GOPATH (resp. VDLPATH) token list, preserving
all pre-existing entries in order before the new ones. -/
theorem c5_workspace_append (env : Snapshot) (root : String) (config : Config)
    (hroot : ':' ∉ root.data)
    (hg : ∀ ws ∈ config.GoWorkspaces, ':' ∉ ws.data ∧ ws ≠ "")
    (hv : ∀ ws ∈ config.VDLWorkspaces, ':' ∉ ws.data ∧ ws ≠ "") :
    (setGoPath env root config).getTokens "GOPATH" ':'
      = env.getTokens "GOPATH" ':' ++ config.GoWorkspaces.map
          (fun workspace => filepathJoin [root, workspace]) ∧
    (setVdlPath env root config).getTokens "VDLPATH" ':'
      = env.getTokens "VDLPATH" ':' ++ config.VDLWorkspaces.map
          (fun workspace => filepathJoin [root, workspace]) := by
  constructor
  · unfold setGoPath
    apply getTokens_setTokens_append
    intro t ht
    rcases List.mem_map.mp ht with ⟨ws, hws, rfl⟩
    constructor
    · apply sep_not_mem_filepathJoin ':' _ (by decide)
      intro p hp
      rcases List.mem_cons.mp hp with hp1 | hp2
      · subst hp1
        exact hroot
      · rw [List.mem_singleton.mp hp2]
        exact (hg ws hws).1
    · exact filepathJoin_ne_empty [root, ws] ws (by simp) (hg ws hws).2
  · unfold setVdlPath
    apply getTokens_setTokens_append
    intro t ht
    rcases List.mem_map.mp ht with ⟨ws, hws, rfl⟩
    constructor
    · apply sep_not_mem_filepathJoin ':' _ (by decide)
      intro p hp
      rcases List.mem_cons.mp hp with hp1 | hp2
      · subst hp1
        exact hroot
      · rw [List.mem_singleton.mp hp2]
        exact (hv ws hws).1
    · exact filepathJoin_ne_empty [root, ws] ws (by simp) (hv ws hws).2

/-- Witness for C5: with root `/v23` and configured Go workspaces
`["release/go"]`, the pre-existing GOPATH entry `/home/go` is preserved
ahead of the appended `/v23/release/go`. -/
theorem c5_workspace_append_witness :
    (setGoPath (NewSnapshotFromOS wBase) "/v23" cfgBase).getTokens "GOPATH" ':'
      = ["/home/go", "/v23/release/go"] ∧
    (setVdlPath (NewSnapshotFromOS wBase) "/v23" cfgBase).getTokens "VDLPATH" ':'
      = ["/v23/release/go/src"] :=
  ⟨(c5_workspace_append (NewSnapshotFromOS wBase) "/v23" cfgBase (by decide)
      (by decide) (by decide)).1,
   (c5_workspace_append (NewSnapshotFromOS wBase) "/v23" cfgBase (by decide)
      (by decide) (by decide)).2⟩

/-- Claim C4: when the platform OS is `darwin` or `linux`, environment
construction (which then calls `setSyncbaseCgoEnv`) enables native-code
compilation (`CGO_ENABLED=1`) and appends an include flag
`-I<root>/third_party/cout/leveldb/include` to `CGO_CFLAGS` and a library
flag `-L<root>/third_party/cout/leveldb/lib` to `CGO_LDFLAGS` only if the
LevelDB directory exists on disk; on `linux` it additionally appends a
runtime library search path flag (`-Wl,-rpath` and the lib directory) to
`CGO_LDFLAGS`. -/
theorem c4_syncbase_cgo (w : World) (env : Snapshot) (root os2 : String)
    (_hos : os2 = "darwin" ∨ os2 = "linux")
    (hroot : ' ' ∉ root.data) :
    (w.stat (leveldbDir root) = StatResult.notExist →
      ∃ env2, setSyncbaseCgoEnv w env root os2 = Except.ok env2 ∧
        env2.get "CGO_ENABLED" = "1" ∧
        env2.getTokens "CGO_CFLAGS" ' ' = env.getTokens "CGO_CFLAGS" ' ' ∧
        env2.getTokens "CGO_LDFLAGS" ' ' = env.getTokens "CGO_LDFLAGS" ' ') ∧
    (w.stat (leveldbDir root) = StatResult.statOk →
      ∃ env2, setSyncbaseCgoEnv w env root os2 = Except.ok env2 ∧
        env2.get "CGO_ENABLED" = "1" ∧
        env2.getTokens "CGO_CFLAGS" ' '
          = env.getTokens "CGO_CFLAGS" ' '
            ++ [filepathJoin ["-I" ++ leveldbDir root, "include"]] ∧
        (os2 = "linux" →
          env2.getTokens "CGO_LDFLAGS" ' '
            = env.getTokens "CGO_LDFLAGS" ' '
              ++ [filepathJoin ["-L" ++ leveldbDir root, "lib"]]
              ++ ["-Wl,-rpath", filepathJoin [leveldbDir root, "lib"]]) ∧
        (os2 ≠ "linux" →
          env2.getTokens "CGO_LDFLAGS" ' '
            = env.getTokens "CGO_LDFLAGS" ' '
              ++ [filepathJoin ["-L" ++ leveldbDir root, "lib"]])) := by
  have hdir : ' ' ∉ (leveldbDir root).data := by
    apply sep_not_mem_filepathJoin ' ' _ (by decide)
    intro p hp
    simp only [List.mem_cons, List.not_mem_nil, or_false] at hp
    rcases hp with rfl | rfl | rfl | rfl
    · exact hroot
    · decide
    · decide
    · decide
  have hIdir : ' ' ∉ ("-I" ++ leveldbDir root).data := by
    rw [string_data_append]
    intro hx
    rcases List.mem_append.mp hx with h | h
    · revert h
      decide
    · exact hdir h
  have hLdir : ' ' ∉ ("-L" ++ leveldbDir root).data := by
    rw [string_data_append]
    intro hx
    rcases List.mem_append.mp hx with h | h
    · revert h
      decide
    · exact hdir h
  have hIflag : ' ' ∉ (filepathJoin ["-I" ++ leveldbDir root, "include"]).data
      ∧ filepathJoin ["-I" ++ leveldbDir root, "include"] ≠ "" := by
    constructor
    · apply sep_not_mem_filepathJoin ' ' _ (by decide)
      intro p hp
      simp only [List.mem_cons, List.not_mem_nil, or_false] at hp
      rcases hp with rfl | rfl
      · exact hIdir
      · decide
    · exact filepathJoin_ne_empty _ ("-I" ++ leveldbDir root) (by simp)
        (append_ne_empty_left "-I" _ (by decide))
  have hLflag : ' ' ∉ (filepathJoin ["-L" ++ leveldbDir root, "lib"]).data
      ∧ filepathJoin ["-L" ++ leveldbDir root, "lib"] ≠ "" := by
    constructor
    · apply sep_not_mem_filepathJoin ' ' _ (by decide)
      intro p hp
      simp only [List.mem_cons, List.not_mem_nil, or_false] at hp
      rcases hp with rfl | rfl
      · exact hLdir
      · decide
    · exact filepathJoin_ne_empty _ ("-L" ++ leveldbDir root) (by simp)
        (append_ne_empty_left "-L" _ (by decide))
  have hRflag : ' ' ∉ (filepathJoin [leveldbDir root, "lib"]).data
      ∧ filepathJoin [leveldbDir root, "lib"] ≠ "" := by
    constructor
    · apply sep_not_mem_filepathJoin ' ' _ (by decide)
      intro p hp
      simp only [List.mem_cons, List.not_mem_nil, or_false] at hp
      rcases hp with rfl | rfl
      · exact hdir
      · decide
    · exact filepathJoin_ne_empty _ "lib" (by simp) (by decide)
  constructor
  · intro hst
    have henv2 : setSyncbaseCgoEnv w env root os2 = Except.ok
        (((env.set "CGO_ENABLED" "1").setTokens "CGO_CFLAGS"
            ((env.set "CGO_ENABLED" "1").getTokens "CGO_CFLAGS" ' ') ' ').setTokens
          "CGO_LDFLAGS" ((env.set "CGO_ENABLED" "1").getTokens "CGO_LDFLAGS" ' ')
          ' ') := by
      simp only [setSyncbaseCgoEnv, hst]
    refine ⟨_, henv2, ?_, ?_, ?_⟩
    · rw [Snapshot.get_setTokens_ne _ "CGO_LDFLAGS" _ ' ' "CGO_ENABLED" (by decide),
        Snapshot.get_setTokens_ne _ "CGO_CFLAGS" _ ' ' "CGO_ENABLED" (by decide),
        Snapshot.get_set_same]
    · rw [Snapshot.getTokens_setTokens_ne _ "CGO_LDFLAGS" _ ' ' "CGO_CFLAGS" ' '
          (by decide),
        getTokens_setTokens_self,
        Snapshot.getTokens_set_ne _ "CGO_ENABLED" _ "CGO_CFLAGS" ' ' (by decide)]
    · have hrw := Snapshot.getTokens_setTokens_ne (env.set "CGO_ENABLED" "1")
        "CGO_CFLAGS" ((env.set "CGO_ENABLED" "1").getTokens "CGO_CFLAGS" ' ') ' '
        "CGO_LDFLAGS" ' ' (by decide)
      rw [← hrw, getTokens_setTokens_self, hrw,
        Snapshot.getTokens_set_ne _ "CGO_ENABLED" _ "CGO_LDFLAGS" ' ' (by decide)]
  · intro hst
    by_cases hlin : os2 = "linux"
    · have henv2 : setSyncbaseCgoEnv w env root os2 = Except.ok
          (((env.set "CGO_ENABLED" "1").setTokens "CGO_CFLAGS"
              ((env.set "CGO_ENABLED" "1").getTokens "CGO_CFLAGS" ' '
                ++ [filepathJoin ["-I" ++ leveldbDir root, "include"]]) ' ').setTokens
            "CGO_LDFLAGS"
            ((env.set "CGO_ENABLED" "1").getTokens "CGO_LDFLAGS" ' '
              ++ [filepathJoin ["-L" ++ leveldbDir root, "lib"]]
              ++ ["-Wl,-rpath", filepathJoin [leveldbDir root, "lib"]]) ' ') := by
        simp only [setSyncbaseCgoEnv, hst, hlin]
        simp
      refine ⟨_, henv2, ?_, ?_, ?_, ?_⟩
      · rw [Snapshot.get_setTokens_ne _ "CGO_LDFLAGS" _ ' ' "CGO_ENABLED" (by decide),
          Snapshot.get_setTokens_ne _ "CGO_CFLAGS" _ ' ' "CGO_ENABLED" (by decide),
          Snapshot.get_set_same]
      · rw [Snapshot.getTokens_setTokens_ne _ "CGO_LDFLAGS" _ ' ' "CGO_CFLAGS" ' '
            (by decide)]
        rw [getTokens_setTokens_append _ _ _ _ (by
          intro t ht
          rw [List.mem_singleton] at ht
          subst ht
          exact hIflag)]
        rw [Snapshot.getTokens_set_ne _ "CGO_ENABLED" _ "CGO_CFLAGS" ' ' (by decide)]
      · intro _
        have hrw := Snapshot.getTokens_setTokens_ne (env.set "CGO_ENABLED" "1")
          "CGO_CFLAGS" ((env.set "CGO_ENABLED" "1").getTokens "CGO_CFLAGS" ' '
            ++ [filepathJoin ["-I" ++ leveldbDir root, "include"]]) ' '
          "CGO_LDFLAGS" ' ' (by decide)
        rw [List.append_assoc, ← hrw]
        rw [getTokens_setTokens_append _ _ _ _ (by
          intro t ht
          simp only [List.mem_append, List.mem_cons, List.mem_singleton,
            List.not_mem_nil, or_false] at ht
          rcases ht with rfl | rfl | rfl
          · exact hLflag
          · exact ⟨by decide, by decide⟩
          · exact hRflag)]
        rw [hrw, Snapshot.getTokens_set_ne _ "CGO_ENABLED" _ "CGO_LDFLAGS" ' '
          (by decide), List.append_assoc]
      · intro hcon
        exact absurd hlin hcon
    · have henv2 : setSyncbaseCgoEnv w env root os2 = Except.ok
          (((env.set "CGO_ENABLED" "1").setTokens "CGO_CFLAGS"
              ((env.set "CGO_ENABLED" "1").getTokens "CGO_CFLAGS" ' '
                ++ [filepathJoin ["-I" ++ leveldbDir root, "include"]]) ' ').setTokens
            "CGO_LDFLAGS"
            ((env.set "CGO_ENABLED" "1").getTokens "CGO_LDFLAGS" ' '
              ++ [filepathJoin ["-L" ++ leveldbDir root, "lib"]]) ' ') := by
        simp only [setSyncbaseCgoEnv, hst, if_neg hlin]
      refine ⟨_, henv2, ?_, ?_, ?_, ?_⟩
      · rw [Snapshot.get_setTokens_ne _ "CGO_LDFLAGS" _ ' ' "CGO_ENABLED" (by decide),
          Snapshot.get_setTokens_ne _ "CGO_CFLAGS" _ ' ' "CGO_ENABLED" (by decide),
          Snapshot.get_set_same]
      · rw [Snapshot.getTokens_setTokens_ne _ "CGO_LDFLAGS" _ ' ' "CGO_CFLAGS" ' '
            (by decide)]
        rw [getTokens_setTokens_append _ _ _ _ (by
          intro t ht
          rw [List.mem_singleton] at ht
          subst ht
          exact hIflag)]
        rw [Snapshot.getTokens_set_ne _ "CGO_ENABLED" _ "CGO_CFLAGS" ' ' (by decide)]
      · intro hcon
        exact absurd hcon hlin
      · intro _
        have hrw := Snapshot.getTokens_setTokens_ne (env.set "CGO_ENABLED" "1")
          "CGO_CFLAGS" ((env.set "CGO_ENABLED" "1").getTokens "CGO_CFLAGS" ' '
            ++ [filepathJoin ["-I" ++ leveldbDir root, "include"]]) ' '
          "CGO_LDFLAGS" ' ' (by decide)
        rw [← hrw]
        rw [getTokens_setTokens_append _ _ _ _ (by
          intro t ht
          rw [List.mem_singleton] at ht
          subst ht
          exact hLflag)]
        rw [hrw, Snapshot.getTokens_set_ne _ "CGO_ENABLED" _ "CGO_LDFLAGS" ' '
          (by decide)]

/-- Witness for C4: at concrete worlds, the LevelDB directory absent (flags
unchanged) and present on linux (include, library and rpath flags
appended). -/
theorem c4_syncbase_cgo_witness :
    (∃ env2, setSyncbaseCgoEnv wBase (NewSnapshotFromOS wBase) "/v23" "linux"
        = Except.ok env2 ∧
      env2.get "CGO_ENABLED" = "1" ∧
      env2.getTokens "CGO_CFLAGS" ' '
        = (NewSnapshotFromOS wBase).getTokens "CGO_CFLAGS" ' ' ∧
      env2.getTokens "CGO_LDFLAGS" ' '
        = (NewSnapshotFromOS wBase).getTokens "CGO_LDFLAGS" ' ') ∧
    (∃ env2, setSyncbaseCgoEnv wStatOk (NewSnapshotFromOS wStatOk) "/v23" "linux"
        = Except.ok env2 ∧
      env2.get "CGO_ENABLED" = "1" ∧
      env2.getTokens "CGO_CFLAGS" ' '
        = (NewSnapshotFromOS wStatOk).getTokens "CGO_CFLAGS" ' '
          ++ [filepathJoin ["-I" ++ leveldbDir "/v23", "include"]] ∧
      (("linux" : String) = "linux" →
        env2.getTokens "CGO_LDFLAGS" ' '
          = (NewSnapshotFromOS wStatOk).getTokens "CGO_LDFLAGS" ' '
            ++ [filepathJoin ["-L" ++ leveldbDir "/v23", "lib"]]
            ++ ["-Wl,-rpath", filepathJoin [leveldbDir "/v23", "lib"]]) ∧
      (("linux" : String) ≠ "linux" →
        env2.getTokens "CGO_LDFLAGS" ' '
          = (NewSnapshotFromOS wStatOk).getTokens "CGO_LDFLAGS" ' '
            ++ [filepathJoin ["-L" ++ leveldbDir "/v23", "lib"]])) :=
  ⟨(c4_syncbase_cgo wBase (NewSnapshotFromOS wBase) "/v23" "linux" (Or.inr rfl)
      (by decide)).1 rfl,
   (c4_syncbase_cgo wStatOk (NewSnapshotFromOS wStatOk) "/v23" "linux" (Or.inr rfl)
      (by decide)).2 rfl⟩

/-- Claim C1: for every platform whose (architecture, OS) pair is neither
the host pair nor one of arm/linux, arm/android, 386/nacl, amd64p32/nacl,
`VanadiumEnvironment` fails with `UnsupportedPlatformErr` naming the
rejected platform.  No snapshot is returned, and the construction being a
pure function of the `World`, the real process environment (`w.osEnv`) is
unchanged by it. -/
theorem c1_unsupported_platform (w : World) (platform : Platform)
    (root : String) (config : Config)
    (hroot : V23Root w = Except.ok root)
    (hconfig : LoadConfig w = Except.ok config)
    (hstat : ∀ m, w.stat (leveldbDir root) ≠ StatResult.otherError m)
    (hhost : ¬(platform.Arch = w.runtimeGOARCH ∧ platform.OS = w.runtimeGOOS))
    (harm : ¬(platform.Arch = "arm" ∧ platform.OS = "linux"))
    (hand : ¬(platform.Arch = "arm" ∧ platform.OS = "android"))
    (hnacl : ¬((platform.Arch = "386" ∨ platform.Arch = "amd64p32") ∧
      platform.OS = "nacl")) :
    VanadiumEnvironment w platform =
      Except.error (Err.unsupportedPlatformErr platform) := by
  have hdisp : ∀ env : Snapshot,
      (if platform.Arch = w.runtimeGOARCH ∧ platform.OS = w.runtimeGOOS then
        Except.ok env
      else if platform.Arch = "arm" ∧ platform.OS = "linux" then
        setArmEnv w env platform
      else if platform.Arch = "arm" ∧ platform.OS = "android" then
        setAndroidEnv w env platform
      else if (platform.Arch = "386" ∨ platform.Arch = "amd64p32") ∧
          platform.OS = "nacl" then
        Except.ok (setNaclEnv env platform)
      else Except.error (Err.unsupportedPlatformErr platform))
      = Except.error (Err.unsupportedPlatformErr platform) := by
    intro env
    rw [if_neg hhost, if_neg harm, if_neg hand, if_neg hnacl]
  by_cases hos : platform.OS = "darwin" ∨ platform.OS = "linux"
  · rcases hcgoE : setSyncbaseCgoEnv w
        (setVdlPath (setGoPath (NewSnapshotFromOS w) root config) root config)
        root platform.OS with e | cgoEnv
    · exact (setSyncbaseCgoEnv_no_error w _ root platform.OS hstat e hcgoE).elim
    · simp only [VanadiumEnvironment, hroot, hconfig, if_pos hos, hcgoE]
      exact hdisp cgoEnv
  · simp only [VanadiumEnvironment, hroot, hconfig, if_neg hos]
    exact hdisp _

/-- Witness for C1: the platform mips/plan9 is rejected at a concrete
world whose root and configuration resolve. -/
theorem c1_unsupported_platform_witness :
    V23Root wBase = Except.ok "/v23" ∧
    LoadConfig wBase = Except.ok cfgBase ∧
    VanadiumEnvironment wBase ⟨"plan9", "mips", ""⟩ =
      Except.error (Err.unsupportedPlatformErr ⟨"plan9", "mips", ""⟩) :=
  ⟨rfl, rfl,
   c1_unsupported_platform wBase ⟨"plan9", "mips", ""⟩ "/v23" cfgBase rfl rfl
     (fun _ h => StatResult.noConfusion h) (by decide) (by decide) (by decide)
     (by decide)⟩

/-- Claim C2: after environment construction for platform arm/linux on a
host that is not arm/linux, the snapshot has GOARCH `"arm"`, GOOS
`"linux"`, GOARM the sub-architecture with any leading `"v"` stripped, and
PATH is exactly the two cross-toolchain directories — first
`<root>/third_party/cout/xgcc/cross_arm`, then
`<root>/third_party/repos/go_arm/bin` — prepended before all pre-existing
PATH entries. -/
theorem c2_arm_linux_env (w : World) (platform : Platform) (root : String)
    (config : Config)
    (hArch : platform.Arch = "arm") (hOS : platform.OS = "linux")
    (hhost : ¬(platform.Arch = w.runtimeGOARCH ∧ platform.OS = w.runtimeGOOS))
    (hroot : V23Root w = Except.ok root)
    (hconfig : LoadConfig w = Except.ok config)
    (hstat : ∀ m, w.stat (leveldbDir root) ≠ StatResult.otherError m)
    (hcolon : ':' ∉ root.data) :
    ∃ env, VanadiumEnvironment w platform = Except.ok env ∧
      env.get "GOARCH" = "arm" ∧
      env.get "GOOS" = "linux" ∧
      env.get "GOARM" = stringTrimPre platform.SubArch "v" ∧
      env.getTokens "PATH" ':'
        = [filepathJoin [root, "third_party", "cout", "xgcc", "cross_arm"],
           filepathJoin [root, "third_party", "repos", "go_arm", "bin"]]
          ++ (NewSnapshotFromOS w).getTokens "PATH" ':' := by
  rcases hcgoE : setSyncbaseCgoEnv w
      (setVdlPath (setGoPath (NewSnapshotFromOS w) root config) root config)
      root platform.OS with e | cgoEnv
  · exact (setSyncbaseCgoEnv_no_error w _ root platform.OS hstat e hcgoE).elim
  · have hcgoPath : cgoEnv.getTokens "PATH" ':'
        = (NewSnapshotFromOS w).getTokens "PATH" ':' := by
      rw [getTokens_congr cgoEnv _ "PATH" ':'
        (setSyncbaseCgoEnv_frame w _ root platform.OS cgoEnv hcgoE "PATH"
          (by decide) (by decide) (by decide))]
      exact preEnv_path w root config
    simp only [VanadiumEnvironment, hroot, hconfig, if_pos (Or.inr hOS), hcgoE]
    rw [if_neg hhost, if_pos ⟨hArch, hOS⟩]
    rcases setArmEnv_spec w cgoEnv platform root hroot hcolon with
      ⟨envA, heqA, h1, h2, h3, h4⟩
    refine ⟨envA, heqA, ?_, ?_, h3, ?_⟩
    · rw [h1, hArch]
    · rw [h2, hOS]
    · rw [h4, hcgoPath]

/-- Witness for C2: arm/linux construction at a concrete amd64/linux-host
world; GOARM is `"6"` for sub-architecture `"v6"` and the two toolchain
directories precede the ambient `/usr/bin` and `/bin` entries. -/
theorem c2_arm_linux_env_witness :
    ∃ env, VanadiumEnvironment wBase ⟨"linux", "arm", "v6"⟩ = Except.ok env ∧
      env.get "GOARCH" = "arm" ∧
      env.get "GOOS" = "linux" ∧
      env.get "GOARM" = "6" ∧
      env.getTokens "PATH" ':'
        = ["/v23/third_party/cout/xgcc/cross_arm",
           "/v23/third_party/repos/go_arm/bin", "/usr/bin", "/bin"] :=
  c2_arm_linux_env wBase ⟨"linux", "arm", "v6"⟩ "/v23" cfgBase rfl rfl
    (by decide) rfl rfl (fun _ h => StatResult.noConfusion h) (by decide)

/-- Claim C3: for platform `{OS: "android", Arch: "arm", SubArch: "v7"}` on
a host that is not arm/android, construction succeeds with GOARM `"7"`
(the `"v"` prefix stripped), CGO_ENABLED `"1"`, GOOS `"android"`, GOARCH
`"arm"`, and exactly one cross-toolchain directory
`<root>/environment/android/go/bin` prepended ahead of all pre-existing
PATH entries. -/
theorem c3_android_env (w : World) (platform : Platform) (root : String)
    (config : Config)
    (hOS : platform.OS = "android") (hArch : platform.Arch = "arm")
    (hSub : platform.SubArch = "v7")
    (hhost : ¬(platform.Arch = w.runtimeGOARCH ∧ platform.OS = w.runtimeGOOS))
    (hroot : V23Root w = Except.ok root)
    (hconfig : LoadConfig w = Except.ok config)
    (hcolon : ':' ∉ root.data) :
    ∃ env, VanadiumEnvironment w platform = Except.ok env ∧
      env.get "GOARM" = "7" ∧
      env.get "CGO_ENABLED" = "1" ∧
      env.get "GOOS" = "android" ∧
      env.get "GOARCH" = "arm" ∧
      env.getTokens "PATH" ':'
        = [filepathJoin [root, "environment", "android", "go", "bin"]]
          ++ (NewSnapshotFromOS w).getTokens "PATH" ':' := by
  simp only [VanadiumEnvironment, hroot, hconfig,
    if_neg (show ¬(platform.OS = "darwin" ∨ platform.OS = "linux") by
      rw [hOS]
      decide)]
  rw [if_neg hhost,
    if_neg (show ¬(platform.Arch = "arm" ∧ platform.OS = "linux") by
      rw [hArch, hOS]
      decide),
    if_pos (⟨hArch, hOS⟩ : platform.Arch = "arm" ∧ platform.OS = "android")]
  rcases setAndroidEnv_spec w
      (setVdlPath (setGoPath (NewSnapshotFromOS w) root config) root config)
      platform root hroot hcolon with
    ⟨envA, heqA, hcgo, hgoos, hgoarch, hgoarm, hpath⟩
  refine ⟨envA, heqA, ?_, hcgo, ?_, ?_, ?_⟩
  · rw [hgoarm, hSub]
    decide
  · rw [hgoos, hOS]
  · rw [hgoarch, hArch]
  · rw [hpath, preEnv_path w root config]

/-- Witness for C3: android/arm/v7 construction at a concrete
amd64/linux-host world. -/
theorem c3_android_env_witness :
    ∃ env, VanadiumEnvironment wBase ⟨"android", "arm", "v7"⟩ = Except.ok env ∧
      env.get "GOARM" = "7" ∧
      env.get "CGO_ENABLED" = "1" ∧
      env.get "GOOS" = "android" ∧
      env.get "GOARCH" = "arm" ∧
      env.getTokens "PATH" ':'
        = ["/v23/environment/android/go/bin", "/usr/bin", "/bin"] :=
  c3_android_env wBase ⟨"android", "arm", "v7"⟩ "/v23" cfgBase rfl rfl rfl
    (by decide) rfl rfl (by decide)

/-- Claim C10: when the requested platform matches the running machine's
architecture and OS, `VanadiumEnvironment` takes the host branch and leaves
GOOS, GOARCH, GOARM and PATH (indeed every variable other than GOPATH,
VDLPATH and the CGO variables) unchanged from the ambient environment;
the host case is tested first, so it wins even when the pair also matches
a cross-compilation case. -/
theorem c10_host_frame (w : World) (platform : Platform) (root : String)
    (config : Config)
    (hhost : platform.Arch = w.runtimeGOARCH ∧ platform.OS = w.runtimeGOOS)
    (hroot : V23Root w = Except.ok root)
    (hconfig : LoadConfig w = Except.ok config)
    (hstat : ∀ m, w.stat (leveldbDir root) ≠ StatResult.otherError m) :
    ∃ env, VanadiumEnvironment w platform = Except.ok env ∧
      (∀ k, k ≠ "GOPATH" → k ≠ "VDLPATH" → k ≠ "CGO_ENABLED" →
        k ≠ "CGO_CFLAGS" → k ≠ "CGO_LDFLAGS" →
        env k = NewSnapshotFromOS w k) ∧
      env.get "GOOS" = (NewSnapshotFromOS w).get "GOOS" ∧
      env.get "GOARCH" = (NewSnapshotFromOS w).get "GOARCH" ∧
      env.get "GOARM" = (NewSnapshotFromOS w).get "GOARM" ∧
      env.getTokens "PATH" ':' = (NewSnapshotFromOS w).getTokens "PATH" ':' := by
  by_cases hos : platform.OS = "darwin" ∨ platform.OS = "linux"
  · rcases hcgoE : setSyncbaseCgoEnv w
        (setVdlPath (setGoPath (NewSnapshotFromOS w) root config) root config)
        root platform.OS with e | cgoEnv
    · exact (setSyncbaseCgoEnv_no_error w _ root platform.OS hstat e hcgoE).elim
    · have hframe : ∀ k, k ≠ "GOPATH" → k ≠ "VDLPATH" → k ≠ "CGO_ENABLED" →
          k ≠ "CGO_CFLAGS" → k ≠ "CGO_LDFLAGS" →
          cgoEnv k = NewSnapshotFromOS w k := by
        intro k h1 h2 h3 h4 h5
        rw [setSyncbaseCgoEnv_frame w _ root platform.OS cgoEnv hcgoE k h3 h4 h5]
        exact preEnv_apply_ne w root config k h1 h2
      simp only [VanadiumEnvironment, hroot, hconfig, if_pos hos, hcgoE]
      rw [if_pos hhost]
      exact ⟨cgoEnv, rfl, hframe,
        get_congr _ _ "GOOS" (hframe "GOOS" (by decide) (by decide) (by decide)
          (by decide) (by decide)),
        get_congr _ _ "GOARCH" (hframe "GOARCH" (by decide) (by decide) (by decide)
          (by decide) (by decide)),
        get_congr _ _ "GOARM" (hframe "GOARM" (by decide) (by decide) (by decide)
          (by decide) (by decide)),
        getTokens_congr _ _ "PATH" ':' (hframe "PATH" (by decide) (by decide)
          (by decide) (by decide) (by decide))⟩
  · have hframe : ∀ k, k ≠ "GOPATH" → k ≠ "VDLPATH" → k ≠ "CGO_ENABLED" →
        k ≠ "CGO_CFLAGS" → k ≠ "CGO_LDFLAGS" →
        setVdlPath (setGoPath (NewSnapshotFromOS w) root config) root config k
          = NewSnapshotFromOS w k :=
      fun k h1 h2 _ _ _ => preEnv_apply_ne w root config k h1 h2
    simp only [VanadiumEnvironment, hroot, hconfig, if_neg hos]
    rw [if_pos hhost]
    exact ⟨_, rfl, hframe,
      get_congr _ _ "GOOS" (hframe "GOOS" (by decide) (by decide) (by decide)
        (by decide) (by decide)),
      get_congr _ _ "GOARCH" (hframe "GOARCH" (by decide) (by decide) (by decide)
        (by decide) (by decide)),
      get_congr _ _ "GOARM" (hframe "GOARM" (by decide) (by decide) (by decide)
        (by decide) (by decide)),
      getTokens_congr _ _ "PATH" ':' (hframe "PATH" (by decide) (by decide)
        (by decide) (by decide) (by decide))⟩

/-- Witness for C10: requesting arm/linux on an arm/linux host takes the
host branch — PATH keeps exactly the ambient entries, with no
cross-toolchain directories. -/
theorem c10_host_frame_witness :
    ∃ env, VanadiumEnvironment
        { wBase with runtimeGOARCH := "arm", runtimeGOOS := "linux" }
        ⟨"linux", "arm", "v6"⟩ = Except.ok env ∧
      (∀ k, k ≠ "GOPATH" → k ≠ "VDLPATH" → k ≠ "CGO_ENABLED" →
        k ≠ "CGO_CFLAGS" → k ≠ "CGO_LDFLAGS" →
        env k = NewSnapshotFromOS
          { wBase with runtimeGOARCH := "arm", runtimeGOOS := "linux" } k) ∧
      env.get "GOOS" = "" ∧
      env.get "GOARCH" = "" ∧
      env.get "GOARM" = "" ∧
      env.getTokens "PATH" ':' = ["/usr/bin", "/bin"] :=
  c10_host_frame { wBase with runtimeGOARCH := "arm", runtimeGOOS := "linux" }
    ⟨"linux", "arm", "v6"⟩ "/v23" cfgBase ⟨rfl, rfl⟩ rfl rfl
    (fun _ h => StatResult.noConfusion h)

end JiriEnv
